/-
Verification of the python-space-game repository against its specification.

This file shallowly embeds the game's core logic in Lean 4:
  * `src/backend_apis/gameEconomy.py` — the `GameEconomy` session state
    (coin accumulator, health, pause/resume) and the `BackendClient` wallet
    calls, with the backend wallet endpoint semantics taken from
    `src/server.py` (`/api/wallet/add-earned-coins`).
  * `src/game/alien.py` — `Alien`, `AlienDiagonal`, `AlienDiver`,
    `MysteryShip`.
  * `src/game/treasureChest.py` — `TreasureChest`, `Key`.
  * `src/game/main.py` — `decrement_health`, `Game.alien_position_checker`,
    `Game.collision_checks`, `Game.victory_message`, the per-frame ordering
    of `Game.run`, and the `Level` configuration table.

Machine integers are modelled as `Int`.  pygame `Rect` coordinates are
integers; assigning a float to a rect field truncates toward zero, which is
modelled with `Int.tdiv` where the code adds a `.5`-valued float.
Network calls are modelled by an explicit availability flag plus the backend
wallet state threaded through; randomness (chest contents) is modelled by
parameters constrained to the configured ranges.
-/
import Mathlib

namespace SpaceGame

/-! ## Configuration constants (`src/game/config.py`) -/

def SCREEN_WIDTH : Int := 1280
def SCREEN_HEIGHT : Int := 720
def TREASURE_CHEST_MIN_COINS : Int := 1000
def TREASURE_CHEST_MAX_COINS : Int := 50000
def TREASURE_CHEST_MIN_HEALTH_PACK : Int := 1
def TREASURE_CHEST_MAX_HEALTH_PACK : Int := 5

/-! ## pygame rectangles

A pygame `Rect` stores integer `x`, `y` (top-left corner), width and height.
`left = x`, `right = x + w`, `top = y`, `centerx = x + w / 2` (floor division,
as in CPython for nonnegative `w`). -/

structure Rect where
  x : Int
  y : Int
  w : Int
  h : Int
  deriving Repr, DecidableEq

def Rect.left (r : Rect) : Int := r.x
def Rect.right (r : Rect) : Int := r.x + r.w
def Rect.top (r : Rect) : Int := r.y
def Rect.centerx (r : Rect) : Int := r.x + r.w / 2
def Rect.centery (r : Rect) : Int := r.y + r.h / 2

/-- `image.get_rect(center=(cx, cy))` : a rect of size `w × h` whose center is
placed at `(cx, cy)` (pygame sets `x = cx - w // 2`, `y = cy - h // 2`). -/
def Rect.fromCenter (cx cy w h : Int) : Rect :=
  { x := cx - w / 2, y := cy - h / 2, w := w, h := h }

/-! ## Backend wallet (`src/server.py`, `/api/wallet/add-earned-coins`)

The backend wallet is modelled by its gold-coin balance.  The endpoint
rejects non-positive amounts and otherwise adds the amount to the balance. -/

/-- Result dict of `BackendClient.add_earned_coins`
(`src/backend_apis/gameEconomy.py` lines 380-410). -/
structure AddCoinsResult where
  success : Bool
  coins_added : Int
  new_balance : Int
  error : Option String
  deriving Repr, DecidableEq

/-- `BackendClient.add_earned_coins(amount)`.  `net` models whether the HTTP
request reaches the backend; `wallet` is the backend wallet's gold-coin
balance.  Returns the client-visible result dict together with the backend
balance after the call.  On `amount <= 0` the client returns failure without
issuing a request; on network failure `_request` returns `None` and the
client reports failure. -/
def add_earned_coins (net : Bool) (wallet : Int) (amount : Int) :
    AddCoinsResult × Int :=
  if amount ≤ 0 then
    ({ success := false, coins_added := 0, new_balance := 0,
       error := some "Amount must be positive" }, wallet)
  else if net then
    ({ success := true, coins_added := amount, new_balance := wallet + amount,
       error := none }, wallet + amount)
  else
    ({ success := false, coins_added := 0, new_balance := 0,
       error := some "Failed to add coins to wallet" }, wallet)

/-! ## GameEconomy session state (`src/backend_apis/gameEconomy.py`) -/

/-- The dictionary stored in `GameEconomy.paused_state` by `pause_game`. -/
structure PausedState where
  timestamp : Int
  score : Int
  health : Int
  session_coins_earned : Int
  /-- the caller-supplied `game_state` dict, opaque to the economy -/
  game_state : Int
  deriving Repr, DecidableEq

/-- Local session state of `GameEconomy`.  `synced_gold` models
`_synced_wallet.gold_coins` (the cached wallet balance; `none` when no sync
has succeeded yet). -/
structure GameEconomy where
  score : Int
  health : Int
  max_health : Int
  session_coins_earned : Int
  is_paused : Bool
  paused_state : Option PausedState
  synced_gold : Option Int
  deriving Repr, DecidableEq

/-- `GameEconomy.add_coins(amount)`: add to the session accumulator only when
the amount is positive. -/
def GameEconomy.add_coins (e : GameEconomy) (amount : Int) : GameEconomy :=
  if amount > 0 then
    { e with session_coins_earned := e.session_coins_earned + amount }
  else e

/-- `GameEconomy.sync_wallet()`: refresh the cached balance from the backend
wallet; on network failure the cache is left unchanged. -/
def GameEconomy.sync_wallet (e : GameEconomy) (net : Bool) (wallet : Int) :
    GameEconomy :=
  if net then { e with synced_gold := some wallet } else e

/-- Result dict of `GameEconomy.save_session_coins`. -/
structure SaveResult where
  success : Bool
  coins_added : Int
  new_balance : Option Int
  error : Option String
  deriving Repr, DecidableEq

/-- `GameEconomy.save_session_coins()` (lines 500-537): flush the session
accumulator to the backend wallet.  Returns the result dict, the new session
state and the new backend wallet balance. -/
def GameEconomy.save_session_coins (e : GameEconomy) (net : Bool)
    (wallet : Int) : SaveResult × GameEconomy × Int :=
  if e.session_coins_earned ≤ 0 then
    ({ success := false, coins_added := 0, new_balance := none,
       error := some "No coins to save" }, e, wallet)
  else
    let r := add_earned_coins net wallet e.session_coins_earned
    if r.1.success then
      let saved := e.session_coins_earned
      let e' := { e with session_coins_earned := 0 }
      let e'' := e'.sync_wallet net r.2
      ({ success := true, coins_added := saved,
         new_balance := some r.1.new_balance, error := none }, e'', r.2)
    else
      ({ success := false, coins_added := 0, new_balance := none,
         error := some "Failed to add coins to wallet" }, e, wallet)

/-- Result dict of `GameEconomy.pause_game`. -/
structure PauseResult where
  success : Bool
  paused_at : Int
  deriving Repr, DecidableEq

/-- `GameEconomy.pause_game(game_state)` (lines 540-563): set the pause flag
and store a fresh snapshot.  `now` models `time.time()`. -/
def GameEconomy.pause_game (e : GameEconomy) (now : Int) (game_state : Int) :
    PauseResult × GameEconomy :=
  let snap : PausedState :=
    { timestamp := now, score := e.score, health := e.health,
      session_coins_earned := e.session_coins_earned,
      game_state := game_state }
  ({ success := true, paused_at := now },
   { e with is_paused := true, paused_state := some snap })

/-- Result dict of `GameEconomy.resume_game`. -/
structure ResumeResult where
  success : Bool
  paused_state : Option PausedState
  error : Option String
  deriving Repr, DecidableEq

/-- `GameEconomy.resume_game()` (lines 565-595): return the stored snapshot
and clear it; fail without mutation when not paused. -/
def GameEconomy.resume_game (e : GameEconomy) : ResumeResult × GameEconomy :=
  if ¬e.is_paused then
    ({ success := false, paused_state := none,
       error := some "Game is not paused" }, e)
  else
    match e.paused_state with
    | none =>
        ({ success := false, paused_state := none,
           error := some "No paused state found" }, e)
    | some s =>
        ({ success := true, paused_state := some s, error := none },
         { e with is_paused := false, paused_state := none })

/-- `GameEconomy.update_health(health)`: clamp into `[0, max_health]`. -/
def GameEconomy.update_health (e : GameEconomy) (health : Int) : GameEconomy :=
  { e with health := max 0 (min e.max_health health) }

/-- A fresh session as built by `GameEconomy.__init__(initial_health=100)`
(the constructor's `sync_wallet` call is modelled by the `net`/`wallet`
arguments). -/
def GameEconomy.init (net : Bool) (wallet : Int) : GameEconomy :=
  GameEconomy.sync_wallet
    { score := 0, health := 100, max_health := 100,
      session_coins_earned := 0, is_paused := false, paused_state := none,
      synced_gold := none } net wallet

/-! ## Formation aliens (`src/game/alien.py` class `Alien`, type 1)

Image sizes depend on asset files, so the rect width/height are carried as
parameters. -/

structure Alien where
  rect : Rect
  speed : Int
  value : Int
  health : Int
  deriving Repr, DecidableEq

/-- `Alien.__init__(type, speed, x, y)` for a type-1 alien of image size
`w × h`: rect centered at `(x, y)`, `value = 100`, `health = 100`. -/
def Alien.init (speed x y w h : Int) : Alien :=
  { rect := Rect.fromCenter x y w h, speed := speed, value := 100,
    health := 100 }

/-- `Alien.update(direction)` with a direction given (the formation case):
`rect.x += direction * speed`. -/
def Alien.update (a : Alien) (direction : Int) : Alien :=
  { a with rect := { a.rect with x := a.rect.x + direction * a.speed } }

/-- The edge test of `Game.alien_position_checker`
(`alien.rect.right >= SCREEN_WIDTH or alien.rect.left <= 0`). -/
def Alien.touchesEdge (a : Alien) : Bool :=
  a.rect.right ≥ SCREEN_WIDTH || a.rect.left ≤ 0

/-- `Game.alien_position_checker` (`src/game/main.py` lines 728-735): the
loop breaks after the first alien found touching an edge, so the direction
is negated at most once and, when any member touches an edge, every member's
`rect.y` is increased by `20` exactly once. -/
def alien_position_checker (aliens : List Alien) (direction : Int) :
    List Alien × Int :=
  if aliens.any Alien.touchesEdge then
    (aliens.map (fun a => { a with rect := { a.rect with y := a.rect.y + 20 } }),
     -direction)
  else (aliens, direction)

/-- The formation part of one `Game.run` frame (`src/game/main.py` lines
1052-1074): `self.aliens.update(self.alien_direction)` moves every formation
member horizontally, then `self.alien_position_checker()` handles edge
contact (nothing in between touches the formation group). -/
def formation_frame (aliens : List Alien) (direction : Int) :
    List Alien × Int :=
  alien_position_checker (aliens.map (fun a => a.update direction)) direction

/-! ## Diagonal aliens (`src/game/alien.py` class `AlienDiagonal`) -/

structure AlienDiagonal where
  rect : Rect
  speed : Int
  horizontal_direction : Int
  value : Int
  health : Int
  deriving Repr, DecidableEq

/-- `AlienDiagonal.__init__(speed, x, y, direction)` for image size `w × h`.
The stored `vertical_speed = speed * 0.5` is recomputed in `update`. -/
def AlienDiagonal.init (speed x y w h direction : Int) : AlienDiagonal :=
  { rect := Rect.fromCenter x y w h, speed := speed,
    horizontal_direction := direction, value := 150, health := 100 }

/-- `AlienDiagonal.update` (`src/game/alien.py` lines 90-108):
`rect.x += horizontal_direction * speed`; clamp-and-invert on either edge;
then `rect.y += vertical_speed` where `vertical_speed = speed * 0.5` is an
exact binary float and pygame truncates the float sum toward zero when
storing it back into the integer rect field — hence
`y' = (2*y + speed).tdiv 2` (`tdiv` rounds toward zero).  Returns `none`
when the sprite kills itself (`rect.top > SCREEN_HEIGHT`). -/
def AlienDiagonal.update (a : AlienDiagonal) : Option AlienDiagonal :=
  let x1 := a.rect.x + a.horizontal_direction * a.speed
  let xd : Int × Int :=
    if x1 ≤ 0 then (0, 1)
    else if x1 + a.rect.w ≥ SCREEN_WIDTH then (SCREEN_WIDTH - a.rect.w, -1)
    else (x1, a.horizontal_direction)
  let y2 := Int.tdiv (2 * a.rect.y + a.speed) 2
  let a' := { a with rect := { a.rect with x := xd.1, y := y2 },
                     horizontal_direction := xd.2 }
  if a'.rect.top > SCREEN_HEIGHT then none else some a'

/-! ## Mystery ship (`src/game/alien.py` class `MysteryShip`) -/

structure MysteryShip where
  rect : Rect
  health : Int
  speed : Int
  value : Int
  direction : Int
  hits_taken : Int
  deriving Repr, DecidableEq

/-- `MysteryShip.__init__(x, y)`: the image is scaled to `(60, 50)` and the
rect placed with `topleft=(x, y)`; `health = 150`, `value = 500`.
`direction` (`random.choice([-1, 1])`) is a parameter. -/
def MysteryShip.init (x y direction : Int) : MysteryShip :=
  { rect := { x := x, y := y, w := 60, h := 50 }, health := 150, speed := 3,
    value := 500, direction := direction, hits_taken := 0 }

/-- `MysteryShip.take_damage(damage)`: increments `hits_taken`, subtracts the
damage from `health`, and returns `True` exactly when the ship is destroyed
(`health <= 0`). -/
def MysteryShip.take_damage (m : MysteryShip) (damage : Int) :
    MysteryShip × Bool :=
  let m' := { m with hits_taken := m.hits_taken + 1,
                     health := m.health - damage }
  (m', decide (m'.health ≤ 0))

/-! ## Treasure chest and key (`src/game/treasureChest.py`)

Pure rendering state (alpha fade, float animation, fall speed of the chest)
is omitted; no claim concerns it.  The randomized chest contents
(`random.randint(TREASURE_CHEST_MIN_COINS, TREASURE_CHEST_MAX_COINS)` and
the probabilistic health packs) are parameters constrained in theorems. -/

structure TreasureChest where
  rect : Rect
  locked : Bool
  value : Int
  health_packs : Int
  is_spawning : Bool
  /-- the chest's final resting center-y (`target_y`) -/
  target_y : Int
  deriving Repr, DecidableEq

/-- `TreasureChest.__init__(x, y)` for image size `w × h`: the rect is
centered at `(x, y)`, then `rect.y = y - 100` starts the fall-in animation
100 px above; `target_y = y` keeps the intended resting position. -/
def TreasureChest.init (x y w h value health_packs : Int) : TreasureChest :=
  let r := Rect.fromCenter x y w h
  { rect := { r with y := y - 100 }, locked := true, value := value,
    health_packs := health_packs, is_spawning := true, target_y := y }

structure Rewards where
  coins : Int
  health_packs : Int
  deriving Repr, DecidableEq

/-- `TreasureChest.get_rewards()`: rewards only once unlocked. -/
def TreasureChest.get_rewards (c : TreasureChest) : Option Rewards :=
  if ¬c.locked then some { coins := c.value, health_packs := c.health_packs }
  else none

/-- `TreasureChest.unlock(has_key)` (lines 47-54): unlocks and returns the
rewards exactly when the chest is locked and a key is held. -/
def TreasureChest.unlock (c : TreasureChest) (has_key : Bool) :
    TreasureChest × Option Rewards :=
  if c.locked && has_key then
    let c' := { c with locked := false, is_spawning := false }
    (c', c'.get_rewards)
  else (c, none)

structure Key where
  rect : Rect
  collected : Bool
  fall_speed : Int
  spawn_time : Int
  display_duration : Int
  is_active : Bool
  deriving Repr, DecidableEq

/-- `Key.__init__(x, y)` for image size `w × h` at spawn tick `now`:
rect centered at `(x, y)`, 3000 ms display duration. -/
def Key.init (x y w h now : Int) : Key :=
  { rect := Rect.fromCenter x y w h, collected := false, fall_speed := 2,
    spawn_time := now, display_duration := 3000, is_active := true }

/-- `Key.update` (lines 148-164) at tick `now`: an uncollected active key
self-removes once `now - spawn_time >= display_duration`, otherwise falls by
`fall_speed` and self-removes below the screen.  `none` models `kill()`. -/
def Key.update (k : Key) (now : Int) : Option Key :=
  if ¬k.collected ∧ k.is_active then
    if now - k.spawn_time ≥ k.display_duration then none
    else
      let k' := { k with rect := { k.rect with y := k.rect.y + k.fall_speed } }
      if k'.rect.top > SCREEN_HEIGHT then none else some k'
  else some k

/-- `Key.collect` (lines 166-171): mark collected; the sprite kills itself. -/
def Key.collect (k : Key) : Key :=
  { k with collected := true }

/-! ## Collision resolver (`src/game/main.py`, `Game.collision_checks`) -/

/-- Outcome of one laser hit on the mystery ship (`collision_checks` lines
549-568).  On the destroying hit the ship is removed, the score and economy
are credited (`value` score, `value * 2` coins), and exactly one chest plus
exactly one key are appended to the respective groups: the chest via
`TreasureChest.spawn_from_mystery_ship(mystery.rect)` (centered on the
ship's rect center), the key at `(mystery.rect.centerx + 50,
mystery.rect.centery)`.  Chest/key image sizes and the chest's randomized
contents are parameters; `now` is the spawn tick of the key. -/
structure MysteryHitResult where
  ship : Option MysteryShip
  spawned_chests : List TreasureChest
  spawned_keys : List Key
  score_delta : Int
  coins_delta : Int
  deriving Repr, DecidableEq

def mystery_laser_hit (m : MysteryShip) (chestW chestH chestValue
    chestHealthPacks keyW keyH now : Int) : MysteryHitResult :=
  let r := m.take_damage 50
  if r.2 then
    { ship := none,
      spawned_chests :=
        [TreasureChest.init r.1.rect.centerx r.1.rect.centery chestW chestH
          chestValue chestHealthPacks],
      spawned_keys :=
        [Key.init (r.1.rect.centerx + 50) r.1.rect.centery keyW keyH now],
      score_delta := r.1.value, coins_delta := r.1.value * 2 }
  else
    { ship := some r.1, spawned_chests := [], spawned_keys := [],
      score_delta := 0, coins_delta := 0 }

/-- Repeated laser hits starting from a live ship: feed each hit's surviving
ship into the next hit. -/
def mystery_hits (m : MysteryShip) (chestW chestH chestValue chestHealthPacks
    keyW keyH now : Int) : Nat → MysteryHitResult
  | 0 => { ship := some m, spawned_chests := [], spawned_keys := [],
           score_delta := 0, coins_delta := 0 }
  | n + 1 =>
    let prev := mystery_hits m chestW chestH chestValue chestHealthPacks
      keyW keyH now n
    match prev.ship with
    | none => prev
    | some s => mystery_laser_hit s chestW chestH chestValue chestHealthPacks
        keyW keyH now

/-- `decrement_health(player, screen)` (`src/game/main.py` lines 124-133):
`player.health = max(0, player.health - 25)` (drawing omitted). -/
def decrement_health (health : Int) : Int := max 0 (health - 25)

/-- The per-collision loop `for alien in aliens_touching_player:
decrement_health(...)` applied `k` times. -/
def applyCollisions : Nat → Int → Int
  | 0, h => h
  | n + 1, h => applyCollisions n (decrement_health h)

/-- The player-vs-enemy part of `Game.collision_checks` (lines 611-648).
Each enemy group is a list of collides-with-player flags (the geometry of
`pygame.sprite.spritecollide` abstracted to its outcome); `spritecollide`
with `dokill=True` removes every colliding sprite.  If any enemy touched err
the player, health drops by 25 per collision (clamped at 0 per step), the
economy health is synced via `update_health`, and the method returns `False`
(game over) exactly when the player's health is `<= 0`. -/
structure EnemyContactResult where
  aliens : List Bool
  diagonal_aliens : List Bool
  diver_aliens : List Bool
  player_health : Int
  econ : GameEconomy
  game_continues : Bool
  deriving Repr, DecidableEq

def player_enemy_contact (aliens diagonal_aliens diver_aliens : List Bool)
    (player_health : Int) (econ : GameEconomy) : EnemyContactResult :=
  let k := aliens.count true + diagonal_aliens.count true +
    diver_aliens.count true
  let survivors := fun g : List Bool => g.filter (fun b => !b)
  if k = 0 then
    { aliens := survivors aliens, diagonal_aliens := survivors diagonal_aliens,
      diver_aliens := survivors diver_aliens, player_health := player_health,
      econ := econ, game_continues := true }
  else
    let h := applyCollisions k player_health
    { aliens := survivors aliens, diagonal_aliens := survivors diagonal_aliens,
      diver_aliens := survivors diver_aliens, player_health := h,
      econ := econ.update_health h, game_continues := decide (h > 0) }

/-- The player-vs-key loop of `collision_checks` (lines 581-585): every key
touching the player is collected (and thereby removed); each contact sets
`player_has_key = True`.  Keys are paired with their collision flag. -/
def keys_player_contact : List (Key × Bool) → Bool → List Key × Bool
  | [], has_key => ([], has_key)
  | (k, c) :: rest, has_key =>
    if c then
      let _ := k.collect
      keys_player_contact rest true
    else
      let r := keys_player_contact rest has_key
      (k :: r.1, r.2)

/-- State threaded through the player-vs-chest loop of `collision_checks`
(lines 587-609). -/
structure ChestLoopState where
  player_has_key : Bool
  score : Int
  econ : GameEconomy
  wallet : Int
  player_health : Int
  /-- surviving chests, in order -/
  chests : List TreasureChest
  deriving Repr, DecidableEq

/-- One iteration of the chest loop for a chest with collision flag `c`.
On contact with a locked chest while holding the key: `chest.unlock` grants
the rewards, positive coin rewards are scored, added to the session and
immediately flushed to the wallet (`save_session_coins` + `sync_wallet`),
positive health packs heal `10` each capped at `100`, the key is consumed
and the chest killed.  Contact without a key does nothing. -/
def chest_contact_step (net : Bool) (s : ChestLoopState)
    (c : TreasureChest) (collides : Bool) : ChestLoopState :=
  if collides then
    if c.locked && s.player_has_key then
      let u := c.unlock true
      match u.2 with
      | some rewards =>
        let s1 :=
          if rewards.coins > 0 then
            let econ1 := s.econ.add_coins rewards.coins
            let r := econ1.save_session_coins net s.wallet
            let econ2 := r.2.1.sync_wallet net r.2.2
            { s with score := s.score + rewards.coins, econ := econ2,
                     wallet := r.2.2 }
          else s
        let s2 :=
          if rewards.health_packs > 0 then
            let h := min 100 (s1.player_health + rewards.health_packs * 10)
            { s1 with player_health := h }
          else s1
        { s2 with player_has_key := false }
      | none => { s with chests := s.chests ++ [u.1] }
    else { s with chests := s.chests ++ [c] }
  else { s with chests := s.chests ++ [c] }

/-- The whole chest loop over the chest group. -/
def chests_player_contact (net : Bool) (s : ChestLoopState)
    (chests : List (TreasureChest × Bool)) : ChestLoopState :=
  chests.foldl (fun s cc => chest_contact_step net s cc.1 cc.2) s

/-! ## Level configuration and progression (`src/game/main.py`, classes
`Level` and `Game.victory_message`) -/

structure LevelConfig where
  rows : Nat
  cols : Nat
  speed : Int
  diagonal_count : Nat
  diver_count : Nat
  deriving Repr, DecidableEq

/-- `Level.level_dict`. -/
def level_dict : Nat → Option LevelConfig
  | 0 => some { rows := 3, cols := 8, speed := 1, diagonal_count := 0,
                diver_count := 0 }
  | 1 => some { rows := 4, cols := 8, speed := 2, diagonal_count := 4,
                diver_count := 0 }
  | 2 => some { rows := 4, cols := 9, speed := 2, diagonal_count := 6,
                diver_count := 3 }
  | 3 => some { rows := 5, cols := 9, speed := 3, diagonal_count := 8,
                diver_count := 5 }
  | 4 => some { rows := 5, cols := 10, speed := 3, diagonal_count := 10,
                diver_count := 7 }
  | 5 => some { rows := 6, cols := 10, speed := 4, diagonal_count := 12,
                diver_count := 10 }
  | _ + 6 => none

/-- `max(Level.level_dict.keys())`. -/
def max_level : Nat := 5

/-- `Level.get_level_config`: `level_dict.get(i, level_dict[0])`. -/
def get_level_config (i : Nat) : LevelConfig :=
  (level_dict i).getD
    { rows := 3, cols := 8, speed := 1, diagonal_count := 0, diver_count := 0 }

/-- `Level.increment_level`. -/
def increment_level (i : Nat) : Nat :=
  if i < max_level then i + 1 else i

/-- The slice of `Game` state read and written by `Game.victory_message`
(lines 962-1040).  The three enemy groups are tracked by their sizes (the
victory logic only tests emptiness and `alien_setup` only determines the
counts); coins live in the economy session plus the backend `wallet`. -/
structure VictoryState where
  aliens : Nat
  diagonal_aliens : Nat
  diver_aliens : Nat
  level : Nat
  level_just_completed : Bool
  level_complete_counter : Int
  level_bonus_earned : Int
  player_health : Int
  health_restored : Int
  lives : Int
  econ : GameEconomy
  wallet : Int
  deriving Repr, DecidableEq

/-- `Game.all_aliens_destroyed`. -/
def all_aliens_destroyed (g : VictoryState) : Bool :=
  g.aliens = 0 && g.diagonal_aliens = 0 && g.diver_aliens = 0

/-- Group sizes produced by `Game.alien_setup()` for the current level:
`rows * cols` formation aliens, plus the configured diagonal and diver
counts. -/
def alien_setup (g : VictoryState) : VictoryState :=
  let cfg := get_level_config g.level
  { g with aliens := cfg.rows * cfg.cols,
           diagonal_aliens := cfg.diagonal_count,
           diver_aliens := cfg.diver_count }

/-- `Game.victory_message` as a state transition (display calls omitted).
Structure of the source: (1) if all groups are empty, the completion flag is
down and the level is below the maximum: award `50 * 2 ** level` bonus
coins, restore 25 health capped at 100, bump lives below the cap 3, flush
session coins, advance the level and re-seed the groups; (2) while the
completion flag is up, tick the 180-frame display counter down, dropping
the flag and zeroing the displayed bonus at 0; (3) otherwise, on the final
level with all groups empty, award the final bonus once (gated by
`level_bonus_earned == 0`). -/
def victory_message (net : Bool) (g : VictoryState) : VictoryState :=
  let g1 :=
    if all_aliens_destroyed g ∧ ¬g.level_just_completed ∧
        g.level < max_level then
      let bonus := 50 * 2 ^ g.level
      let econ1 := g.econ.add_coins bonus
      let health1 := min 100 (g.player_health + 25)
      let lives1 := if g.lives < 3 then g.lives + 1 else g.lives
      let r := econ1.save_session_coins net g.wallet
      alien_setup
        { g with level_just_completed := true, level_complete_counter := 180,
                 level_bonus_earned := bonus, econ := r.2.1, wallet := r.2.2,
                 player_health := health1,
                 health_restored := health1 - g.player_health,
                 lives := lives1, level := increment_level g.level }
    else g
  if g1.level_just_completed then
    let g2 := { g1 with level_complete_counter := g1.level_complete_counter - 1 }
    if g2.level_complete_counter ≤ 0 then
      { g2 with level_just_completed := false, level_bonus_earned := 0 }
    else g2
  else if all_aliens_destroyed g1 ∧ g1.level ≥ max_level then
    if g1.level_bonus_earned = 0 then
      let bonus := 50 * 2 ^ g1.level
      let econ1 := g1.econ.add_coins bonus
      let r := econ1.save_session_coins net g1.wallet
      { g1 with level_bonus_earned := bonus, econ := r.2.1, wallet := r.2.2 }
    else g1
  else g1

/-- Total coins credited to the player: the session accumulator plus the
backend wallet balance.  `save_session_coins` moves coins between the two
without changing the sum. -/
def coinTotal (g : VictoryState) : Int :=
  g.econ.session_coins_earned + g.wallet

/-- `n` further frames of `victory_message`. -/
def victory_frames (net : Bool) : Nat → VictoryState → VictoryState
  | 0, g => g
  | n + 1, g => victory_frames net n (victory_message net g)

/-! ## Helper lemmas -/

lemma add_coins_session_le (e : GameEconomy) (a : Int) :
    e.session_coins_earned ≤ (e.add_coins a).session_coins_earned := by
  unfold GameEconomy.add_coins
  split
  · simp
    omega
  · simp

lemma foldl_add_coins_nonneg (l : List Int) (e : GameEconomy)
    (h : 0 ≤ e.session_coins_earned) :
    0 ≤ (l.foldl GameEconomy.add_coins e).session_coins_earned := by
  induction l generalizing e with
  | nil => simpa using h
  | cons a t ih =>
      simp only [List.foldl_cons]
      exact ih _ (le_trans h (add_coins_session_le e a))

/-- C10: `GameEconomy.add_coins` ignores non-positive amounts, adds positive
amounts exactly, never decreases the session accumulator, and starting from
a fresh session every sequence of calls keeps the accumulator
non-negative. -/
theorem add_coins_spec (e : GameEconomy) (amount : Int) (l : List Int)
    (h0 : 0 ≤ e.session_coins_earned) :
    (amount ≤ 0 → e.add_coins amount = e) ∧
    (0 < amount → (e.add_coins amount).session_coins_earned =
      e.session_coins_earned + amount) ∧
    e.session_coins_earned ≤ (e.add_coins amount).session_coins_earned ∧
    0 ≤ (l.foldl GameEconomy.add_coins e).session_coins_earned := by
  refine ⟨?_, ?_, add_coins_session_le e amount,
    foldl_add_coins_nonneg l e h0⟩
  · intro h
    unfold GameEconomy.add_coins
    split
    · omega
    · rfl
  · intro h
    unfold GameEconomy.add_coins
    split
    · rfl
    · omega

theorem add_coins_spec_witness :
    0 ≤ (GameEconomy.init false 0).session_coins_earned ∧
    ((-3 : Int) ≤ 0 → (GameEconomy.init false 0).add_coins (-3) =
      GameEconomy.init false 0) ∧
    (0 < (-3 : Int) →
      ((GameEconomy.init false 0).add_coins (-3)).session_coins_earned =
      (GameEconomy.init false 0).session_coins_earned + (-3)) ∧
    (GameEconomy.init false 0).session_coins_earned ≤
      ((GameEconomy.init false 0).add_coins (-3)).session_coins_earned ∧
    0 ≤ (([7, -2, 5] : List Int).foldl GameEconomy.add_coins
      (GameEconomy.init false 0)).session_coins_earned :=
  ⟨by decide, add_coins_spec (GameEconomy.init false 0) (-3) [7, -2, 5]
    (by decide)⟩

/-- C5: `save_session_coins` fails without touching any state when the
accumulator is non-positive; with accumulator `N > 0` and a reachable
backend it reports success with `coins_added = N`, zeroes the accumulator
and refreshes the cached balance to the backend balance `wallet + N`; when
the wallet credit fails it reports failure and leaves the session untouched,
so the retried call sends the same `N` again. -/
theorem save_session_coins_spec (e : GameEconomy) (net : Bool)
    (wallet N : Int) (hN : e.session_coins_earned = N) :
    (N ≤ 0 → e.save_session_coins net wallet =
      ({ success := false, coins_added := 0, new_balance := none,
         error := some "No coins to save" }, e, wallet)) ∧
    (0 < N →
      e.save_session_coins true wallet =
      ({ success := true, coins_added := N, new_balance := some (wallet + N),
         error := none },
       { e with session_coins_earned := 0, synced_gold := some (wallet + N) },
       wallet + N)) ∧
    (0 < N →
      e.save_session_coins false wallet =
      ({ success := false, coins_added := 0, new_balance := none,
         error := some "Failed to add coins to wallet" }, e, wallet)) := by
  subst hN
  unfold GameEconomy.save_session_coins add_earned_coins
    GameEconomy.sync_wallet
  refine ⟨fun h => ?_, fun h => ?_, fun h => ?_⟩
  · simp [h]
  · simp [not_le.mpr h, h, not_le_of_lt h]
  · simp [not_le.mpr h, h, not_le_of_lt h]

theorem save_session_coins_spec_witness :
    (let e := { GameEconomy.init false 0 with session_coins_earned := 42 }
     e.session_coins_earned = 42 ∧
     ((42 : Int) ≤ 0 → e.save_session_coins true 10 =
       ({ success := false, coins_added := 0, new_balance := none,
          error := some "No coins to save" }, e, 10)) ∧
     ((0 : Int) < 42 →
       e.save_session_coins true 10 =
       ({ success := true, coins_added := 42, new_balance := some 52,
          error := none },
        { e with session_coins_earned := 0, synced_gold := some 52 }, 52)) ∧
     ((0 : Int) < 42 →
       e.save_session_coins false 10 =
       ({ success := false, coins_added := 0, new_balance := none,
          error := some "Failed to add coins to wallet" }, e, 10))) :=
  ⟨by decide, save_session_coins_spec _ true 10 42 (by decide)⟩

/-- C6 counterexample: pausing twice in a row is **not** a no-op the second
time — the second `pause_game` call overwrites the first snapshot with a
fresh one (new timestamp and new game-state blob). -/
theorem pause_twice_overwrites_counterexample :
    (let e0 := GameEconomy.init false 0
     let e1 := (e0.pause_game 10 1).2
     let e2 := (e1.pause_game 20 2).2
     e1.is_paused = true ∧
     e1.paused_state = some (⟨10, 0, 100, 0, 1⟩ : PausedState) ∧
     e2.paused_state = some (⟨20, 0, 100, 0, 2⟩ : PausedState) ∧
     e2.paused_state ≠ e1.paused_state) := by
  decide

/-- C6 (amended): resume on a non-paused session returns a structured
failure and mutates nothing; at most one snapshot exists at a time (a
single optional field) and a successful resume returns it and clears it;
but a second `pause_game` while already paused is not a no-op: it replaces
the stored snapshot with a fresh one. -/
theorem pause_resume_spec (e eP : GameEconomy) (now gs : Int)
    (s : PausedState) (hnp : e.is_paused = false) (hp : eP.is_paused = true)
    (hs : eP.paused_state = some s) :
    e.resume_game =
      ({ success := false, paused_state := none,
         error := some "Game is not paused" }, e) ∧
    (eP.pause_game now gs).2.is_paused = true ∧
    (eP.pause_game now gs).2.paused_state =
      some { timestamp := now, score := eP.score, health := eP.health,
             session_coins_earned := eP.session_coins_earned,
             game_state := gs } ∧
    eP.resume_game =
      ({ success := true, paused_state := some s, error := none },
       { eP with is_paused := false, paused_state := none }) := by
  refine ⟨?_, rfl, rfl, ?_⟩
  · unfold GameEconomy.resume_game
    simp [hnp]
  · unfold GameEconomy.resume_game
    simp [hp, hs]

theorem pause_resume_spec_witness :
    (let e := GameEconomy.init false 0
     let eP := (e.pause_game 10 1).2
     let s : PausedState := ⟨10, 0, 100, 0, 1⟩
     e.is_paused = false ∧ eP.is_paused = true ∧ eP.paused_state = some s ∧
     (e.resume_game =
       ({ success := false, paused_state := none,
          error := some "Game is not paused" }, e) ∧
      (eP.pause_game 20 2).2.is_paused = true ∧
      (eP.pause_game 20 2).2.paused_state =
        some (⟨20, eP.score, eP.health, eP.session_coins_earned, 2⟩ :
          PausedState) ∧
      eP.resume_game =
        ({ success := true, paused_state := some s, error := none },
         { eP with is_paused := false, paused_state := none }))) :=
  ⟨by decide, by decide, by decide,
   pause_resume_spec (GameEconomy.init false 0)
     ((GameEconomy.init false 0).pause_game 10 1).2 20 2 _
     (by decide) (by decide) (by decide)⟩

lemma applyCollisions_eq (k : Nat) (h : Int) (hh : 0 ≤ h) :
    applyCollisions k h = max 0 (h - 25 * k) := by
  induction k generalizing h with
  | zero =>
      simp only [applyCollisions, Nat.cast_zero, mul_zero, sub_zero]
      omega
  | succ n ih =>
      have step : applyCollisions (n + 1) h
          = applyCollisions n (decrement_health h) := rfl
      rw [step, ih (decrement_health h) (by unfold decrement_health; omega)]
      unfold decrement_health
      push_cast
      omega

/-- C2: the player-vs-enemy pass of `Game.collision_checks`: with `k ≥ 1`
colliding enemies, every colliding enemy (from any of the three groups) is
removed, the player's health drops by 25 per colliding enemy with the damage
stacking and clamping at 0, the economy session's health is set to the
player's new health, and the pass signals game over (returns `False`) if and
only if the resulting health is `≤ 0`. -/
theorem player_enemy_collision_spec (g1 g2 g3 : List Bool)
    (health : Int) (econ : GameEconomy)
    (hk : 1 ≤ g1.count true + g2.count true + g3.count true)
    (hh0 : 0 ≤ health) (hh1 : health ≤ 100) (hmax : econ.max_health = 100) :
    (let r := player_enemy_contact g1 g2 g3 health econ
     (∀ b ∈ r.aliens, b = false) ∧
     (∀ b ∈ r.diagonal_aliens, b = false) ∧
     (∀ b ∈ r.diver_aliens, b = false) ∧
     r.player_health = max 0 (health -
       25 * (g1.count true + g2.count true + g3.count true)) ∧
     r.econ.health = r.player_health ∧
     (r.game_continues = false ↔ r.player_health ≤ 0) ∧
     (r.game_continues = false ↔
       health ≤ 25 * (g1.count true + g2.count true + g3.count true))) := by
  intro r
  unfold r
  have hkne : ¬(g1.count true + g2.count true + g3.count true = 0) := by omega
  have hfil : ∀ g : List Bool, ∀ b ∈ g.filter (fun b => !b), b = false := by
    intro g b hb
    have := List.of_mem_filter hb
    simpa using this
  have happ := applyCollisions_eq
    (g1.count true + g2.count true + g3.count true) health hh0
  have hrle : applyCollisions
      (g1.count true + g2.count true + g3.count true) health ≤ 100 := by
    rw [happ]
    omega
  have hrge : 0 ≤ applyCollisions
      (g1.count true + g2.count true + g3.count true) health := by
    rw [happ]
    omega
  show (∀ b ∈ _, b = false) ∧ _
  unfold player_enemy_contact
  simp only [hkne, if_false]
  refine ⟨hfil g1, hfil g2, hfil g3, happ, ?_, ?_, ?_⟩
  · unfold GameEconomy.update_health
    simp only [hmax]
    omega
  · simp only [decide_eq_false_iff_not, not_lt]
  · rw [happ]
    simp only [decide_eq_false_iff_not, not_lt]
    omega

theorem player_enemy_collision_spec_witness :
    (1 ≤ ([true, true] : List Bool).count true +
      ([] : List Bool).count true + ([] : List Bool).count true) ∧
    (0 : Int) ≤ 25 ∧ (25 : Int) ≤ 100 ∧
    (GameEconomy.init false 0).max_health = 100 ∧
    (let r := player_enemy_contact [true, true] [] [] 25
      (GameEconomy.init false 0)
     (∀ b ∈ r.aliens, b = false) ∧
     (∀ b ∈ r.diagonal_aliens, b = false) ∧
     (∀ b ∈ r.diver_aliens, b = false) ∧
     r.player_health = max 0 (25 -
       25 * (([true, true] : List Bool).count true +
         ([] : List Bool).count true + ([] : List Bool).count true)) ∧
     r.econ.health = r.player_health ∧
     (r.game_continues = false ↔ r.player_health ≤ 0) ∧
     (r.game_continues = false ↔
       (25 : Int) ≤ 25 * (([true, true] : List Bool).count true +
         ([] : List Bool).count true + ([] : List Bool).count true))) :=
  ⟨by decide, by decide, by decide, by decide,
   player_enemy_collision_spec [true, true] [] [] 25
     (GameEconomy.init false 0) (by decide) (by decide) (by decide)
     (by decide)⟩

/-- C9 counterexample: a diagonal alien does **not** descend by half its
horizontal speed each update when the speed is odd (here speed 3, as in the
level 3/4 configurations): the pygame rect stores integers, so the `1.5`
descent truncates to `1`. -/
theorem diagonal_descent_counterexample :
    (let a := AlienDiagonal.init 3 600 100 40 40 1
     a.update = some { a with rect := { a.rect with x := 583, y := 81 } } ∧
     (a.update.map fun b => b.rect.y - a.rect.y) = some 1 ∧
     2 * (1 : Int) ≠ a.speed) := by
  decide

/-- C9 (amended): after an `AlienDiagonal.update` in which the alien touched
or crossed the left edge, `rect.left = 0` and the direction is `+1`
(symmetrically `rect.right = SCREEN_WIDTH` and `-1` on the right edge); the
vertical descent per update is `y + speed * 0.5` truncated toward zero into
the integer rect, which equals exactly half the horizontal speed only when
the speed is even. -/
theorem diagonal_update_spec (a a' : AlienDiagonal)
    (hwW : a.rect.w < SCREEN_WIDTH)
    (hu : a.update = some a') :
    (a.rect.x + a.horizontal_direction * a.speed ≤ 0 →
      a'.rect.left = 0 ∧ a'.horizontal_direction = 1) ∧
    (SCREEN_WIDTH ≤ a.rect.x + a.horizontal_direction * a.speed + a.rect.w →
      a'.rect.right = SCREEN_WIDTH ∧ a'.horizontal_direction = -1) ∧
    a'.rect.y = Int.tdiv (2 * a.rect.y + a.speed) 2 ∧
    (a.speed % 2 = 0 → a'.rect.y = a.rect.y + a.speed / 2) := by
  unfold AlienDiagonal.update at hu
  simp only at hu
  have heven : a.speed % 2 = 0 →
      Int.tdiv (2 * a.rect.y + a.speed) 2 = a.rect.y + a.speed / 2 := by
    intro hs
    have h2 : a.speed = 2 * (a.speed / 2) := by omega
    have : 2 * a.rect.y + a.speed = 2 * (a.rect.y + a.speed / 2) := by
      omega
    rw [this, Int.mul_tdiv_cancel_left _ (by norm_num)]
  by_cases hL : a.rect.x + a.horizontal_direction * a.speed ≤ 0
  · simp only [if_pos hL] at hu
    split at hu
    · simp at hu
    · rw [Option.some_inj] at hu
      subst hu
      refine ⟨fun _ => ⟨rfl, rfl⟩, fun hR => absurd hR (by omega), rfl, heven⟩
  · by_cases hR : a.rect.x + a.horizontal_direction * a.speed + a.rect.w ≥
        SCREEN_WIDTH
    · simp only [if_neg hL, if_pos hR] at hu
      split at hu
      · simp at hu
      · rw [Option.some_inj] at hu
        subst hu
        refine ⟨fun hL2 => absurd hL2 hL, fun _ => ⟨?_, rfl⟩, rfl, heven⟩
        simp only [Rect.right]
        ring
    · simp only [if_neg hL, if_neg hR] at hu
      split at hu
      · simp at hu
      · rw [Option.some_inj] at hu
        subst hu
        exact ⟨fun hL2 => absurd hL2 hL, fun hR2 => absurd hR2 hR, rfl, heven⟩

theorem diagonal_update_spec_witness :
    (let a := AlienDiagonal.init 2 10 100 40 40 (-1)
     let b : AlienDiagonal :=
       { a with rect := { a.rect with x := 0, y := 81 },
                horizontal_direction := 1 }
     a.rect.w < SCREEN_WIDTH ∧ a.update = some b ∧
     ((a.rect.x + a.horizontal_direction * a.speed ≤ 0 →
        b.rect.left = 0 ∧ b.horizontal_direction = 1) ∧
      (SCREEN_WIDTH ≤ a.rect.x + a.horizontal_direction * a.speed +
          a.rect.w →
        b.rect.right = SCREEN_WIDTH ∧ b.horizontal_direction = -1) ∧
      b.rect.y = Int.tdiv (2 * a.rect.y + a.speed) 2 ∧
      (a.speed % 2 = 0 → b.rect.y = a.rect.y + a.speed / 2))) :=
  ⟨by decide, by decide,
   diagonal_update_spec _ _ (by decide) (by decide)⟩

lemma mystery_hits_succ (m : MysteryShip)
    (cw ch cv chp kw kh now : Int) (n : Nat) :
    mystery_hits m cw ch cv chp kw kh now (n + 1) =
      (match (mystery_hits m cw ch cv chp kw kh now n).ship with
       | none => mystery_hits m cw ch cv chp kw kh now n
       | some s => mystery_laser_hit s cw ch cv chp kw kh now) := rfl

lemma mystery_hits_stable (m : MysteryShip)
    (cw ch cv chp kw kh now : Int) (n : Nat)
    (h : (mystery_hits m cw ch cv chp kw kh now n).ship = none) :
    mystery_hits m cw ch cv chp kw kh now (n + 1) =
      mystery_hits m cw ch cv chp kw kh now n := by
  rw [mystery_hits_succ, h]

lemma mystery_hits_stable_ge (m : MysteryShip)
    (cw ch cv chp kw kh now : Int) (n : Nat)
    (h : (mystery_hits m cw ch cv chp kw kh now n).ship = none) :
    ∀ k, mystery_hits m cw ch cv chp kw kh now (n + k) =
      mystery_hits m cw ch cv chp kw kh now n := by
  intro k
  induction k with
  | zero => rfl
  | succ j ih =>
      have hnj : n + (j + 1) = (n + j) + 1 := by omega
      rw [hnj, mystery_hits_stable _ _ _ _ _ _ _ _ _ (by rw [ih]; exact h),
        ih]

lemma mystery_hits_one (x y d cw ch cv chp kw kh now : Int) :
    mystery_hits (MysteryShip.init x y d) cw ch cv chp kw kh now 1 =
      ⟨some ⟨⟨x, y, 60, 50⟩, 100, 3, 500, d, 1⟩, [], [], 0, 0⟩ := rfl

lemma mystery_hits_two (x y d cw ch cv chp kw kh now : Int) :
    mystery_hits (MysteryShip.init x y d) cw ch cv chp kw kh now 2 =
      ⟨some ⟨⟨x, y, 60, 50⟩, 50, 3, 500, d, 2⟩, [], [], 0, 0⟩ := rfl

lemma mystery_hits_three (x y d cw ch cv chp kw kh now : Int) :
    mystery_hits (MysteryShip.init x y d) cw ch cv chp kw kh now 3 =
      ⟨none, [TreasureChest.init (x + 30) (y + 25) cw ch cv chp],
       [Key.init (x + 30 + 50) (y + 25) kw kh now], 500, 1000⟩ := rfl

/-- C3 counterexample: the Key spawned on a mystery-ship destruction is
**not** at the ship's last position — it is centered 50 px to the right of
the ship's last center (`Key(mystery.rect.centerx + 50,
mystery.rect.centery)`). -/
theorem mystery_key_offset_counterexample :
    (let m := MysteryShip.init 400 50 1
     let r := mystery_hits m 80 80 1000 0 20 30 0 3
     r.spawned_keys.map (fun k => k.rect.centerx) = [480] ∧
     m.rect.centerx = 430 ∧ (480 : Int) ≠ 430) := by
  decide

/-- C3 (amended): the mystery ship starts with health 150, each laser hit
applies exactly 50 damage, it survives the first two hits and is destroyed
exactly on the 3rd, and every destruction spawns exactly one TreasureChest
and exactly one Key, never more (processing further hits after the
destroying one changes nothing).  The chest is centered horizontally on the
ship's last center with its resting target at the ship's center-y (it
starts 100 px above for its fall-in animation); the key is centered 50 px
to the right of the ship's last center. -/
theorem mystery_ship_bounty_spec (x y d cw ch cv chp kw kh now : Int) :
    (MysteryShip.init x y d).health = 150 ∧
    (mystery_hits (MysteryShip.init x y d) cw ch cv chp kw kh now 1).ship =
      some ⟨⟨x, y, 60, 50⟩, 100, 3, 500, d, 1⟩ ∧
    (mystery_hits (MysteryShip.init x y d) cw ch cv chp kw kh now
      1).spawned_chests = [] ∧
    (mystery_hits (MysteryShip.init x y d) cw ch cv chp kw kh now
      1).spawned_keys = [] ∧
    (mystery_hits (MysteryShip.init x y d) cw ch cv chp kw kh now 2).ship =
      some ⟨⟨x, y, 60, 50⟩, 50, 3, 500, d, 2⟩ ∧
    (mystery_hits (MysteryShip.init x y d) cw ch cv chp kw kh now
      2).spawned_chests = [] ∧
    (mystery_hits (MysteryShip.init x y d) cw ch cv chp kw kh now
      2).spawned_keys = [] ∧
    (mystery_hits (MysteryShip.init x y d) cw ch cv chp kw kh now 3).ship =
      none ∧
    (mystery_hits (MysteryShip.init x y d) cw ch cv chp kw kh now
      3).spawned_chests.map
        (fun c => (c.rect.centerx, c.target_y, c.rect.y, c.locked)) =
      [((MysteryShip.init x y d).rect.centerx,
        (MysteryShip.init x y d).rect.centery,
        (MysteryShip.init x y d).rect.centery - 100, true)] ∧
    (mystery_hits (MysteryShip.init x y d) cw ch cv chp kw kh now
      3).spawned_keys.map
        (fun k => (k.rect.centerx, k.rect.centery, k.display_duration)) =
      [((MysteryShip.init x y d).rect.centerx + 50,
        (MysteryShip.init x y d).rect.centery, 3000)] ∧
    (∀ n, 3 ≤ n →
      mystery_hits (MysteryShip.init x y d) cw ch cv chp kw kh now n =
        mystery_hits (MysteryShip.init x y d) cw ch cv chp kw kh now 3) := by
  refine ⟨rfl, by rw [mystery_hits_one], by rw [mystery_hits_one],
    by rw [mystery_hits_one], by rw [mystery_hits_two],
    by rw [mystery_hits_two], by rw [mystery_hits_two],
    by rw [mystery_hits_three], ?_, ?_, ?_⟩
  · rw [mystery_hits_three]
    simp only [List.map_cons, List.map_nil, TreasureChest.init,
      Rect.fromCenter, Rect.centerx, Rect.centery, MysteryShip.init]
    norm_num
  · rw [mystery_hits_three]
    simp only [List.map_cons, List.map_nil, Key.init, Rect.fromCenter,
      Rect.centerx, Rect.centery, MysteryShip.init]
    norm_num
  · intro n hn
    obtain ⟨k, rfl⟩ : ∃ k, n = 3 + k := ⟨n - 3, by omega⟩
    exact mystery_hits_stable_ge (MysteryShip.init x y d) cw ch cv chp kw kh
      now 3 (by rw [mystery_hits_three]) k

theorem mystery_ship_bounty_spec_witness :
    (mystery_hits (MysteryShip.init 120 60 (-1)) 80 80 2000 1 20 30 7 4 =
      mystery_hits (MysteryShip.init 120 60 (-1)) 80 80 2000 1 20 30 7 3) ∧
    (mystery_hits (MysteryShip.init 120 60 (-1)) 80 80 2000 1 20 30 7
      3).ship = none := by
  obtain ⟨-, -, -, -, -, -, -, h8, -, -, h11⟩ :=
    mystery_ship_bounty_spec 120 60 (-1) 80 80 2000 1 20 30 7
  exact ⟨h11 4 (by norm_num), h8⟩

lemma keys_contact_flag_true (l : List (Key × Bool)) :
    (keys_player_contact l true).2 = true := by
  induction l with
  | nil => rfl
  | cons kc rest ih =>
      obtain ⟨k, c⟩ := kc
      simp only [keys_player_contact]
      split
      · exact ih
      · simpa using ih

/-- C8: a Key spawned at tick `now` that is still uncollected self-removes
at the first update whose tick `t` satisfies `t - now ≥ 3000` (its
`display_duration` is 3000 ms); a Key touched by the player is removed
immediately by the collision pass, which sets `player_has_key` to true. -/
theorem key_lifetime_spec (x y w h now t : Int)
    (rest : List (Key × Bool)) (hk0 : Bool)
    (hdeadline : t - now ≥ 3000) :
    (Key.init x y w h now).display_duration = 3000 ∧
    (Key.init x y w h now).update t = none ∧
    keys_player_contact ((Key.init x y w h now, true) :: rest) hk0 =
      keys_player_contact rest true ∧
    (keys_player_contact ((Key.init x y w h now, true) :: rest) hk0).2 =
      true := by
  refine ⟨rfl, ?_, rfl, ?_⟩
  · unfold Key.update Key.init
    simp only [Bool.not_false, true_and]
    rw [if_pos (by trivial), if_pos hdeadline]
  · show (keys_player_contact rest true).2 = true
    exact keys_contact_flag_true rest

theorem key_lifetime_spec_witness :
    ((3200 : Int) - 100 ≥ 3000) ∧
    ((Key.init 5 6 20 30 100).display_duration = 3000 ∧
     (Key.init 5 6 20 30 100).update 3200 = none ∧
     keys_player_contact [(Key.init 5 6 20 30 100, true)] false =
       keys_player_contact [] true ∧
     (keys_player_contact [(Key.init 5 6 20 30 100, true)] false).2 =
       true) :=
  ⟨by decide, key_lifetime_spec 5 6 20 30 100 3200 [] false (by decide)⟩

/-- C1 counterexample: in a frame in which a formation alien touches the
screen edge, the members' x-coordinates **do** change — the horizontal
update `x += direction * speed` runs earlier in the same frame, before
`alien_position_checker` flips the direction and applies the descent. -/
theorem formation_x_changes_counterexample :
    (let a := Alien.init 1 1260 100 40 40
     ([a].map (fun b => b.update 1)).any Alien.touchesEdge = true ∧
     (formation_frame [a] 1).1.map (fun b => b.rect.x) = [1241] ∧
     [a].map (fun b => b.rect.x) = [1240] ∧ (1241 : Int) ≠ 1240) := by
  decide

/-- C1 (amended): in every frame in which some formation member touches a
screen edge after the horizontal update, the shared direction is exactly
negated (once, not once per touching member), every member's y-coordinate
increases by exactly the descent step 20, and the position checker itself
leaves x unchanged — but each member's x has already changed by
`direction * speed` earlier in the same frame. -/
theorem formation_descent_spec (aliens : List Alien) (dir : Int)
    (hedge : (aliens.map (fun a => a.update dir)).any Alien.touchesEdge =
      true) :
    formation_frame aliens dir =
      (aliens.map (fun a =>
        { a with rect :=
            ⟨a.rect.x + dir * a.speed, a.rect.y + 20, a.rect.w, a.rect.h⟩ }),
       -dir) := by
  unfold formation_frame alien_position_checker
  simp only [hedge, if_true, List.map_map]
  rfl

theorem formation_descent_spec_witness :
    (([Alien.init 1 1260 100 40 40].map
        (fun a => a.update 1)).any Alien.touchesEdge = true) ∧
    formation_frame [Alien.init 1 1260 100 40 40] 1 =
      ([Alien.init 1 1260 100 40 40].map (fun a =>
        { a with rect :=
            ⟨a.rect.x + 1 * a.speed, a.rect.y + 20, a.rect.w, a.rect.h⟩ }),
       -1) :=
  ⟨by decide, formation_descent_spec [Alien.init 1 1260 100 40 40] 1
    (by decide)⟩

lemma save_session_coins_total (e : GameEconomy) (net : Bool) (w : Int) :
    (e.save_session_coins net w).2.1.session_coins_earned +
      (e.save_session_coins net w).2.2 = e.session_coins_earned + w := by
  unfold GameEconomy.save_session_coins add_earned_coins
    GameEconomy.sync_wallet
  by_cases h0 : e.session_coins_earned ≤ 0
  · simp [h0]
  · cases net
    · simp [h0]
    · simp [h0]
      omega

lemma sync_wallet_session (e : GameEconomy) (net : Bool) (w : Int) :
    (e.sync_wallet net w).session_coins_earned = e.session_coins_earned := by
  unfold GameEconomy.sync_wallet
  split
  · rfl
  · rfl

lemma chest_step_no_key (net : Bool) (s : ChestLoopState) (c : TreasureChest)
    (collides : Bool) (h : s.player_has_key = false) :
    chest_contact_step net s c collides =
      { s with chests := s.chests ++ [c] } := by
  unfold chest_contact_step
  cases collides
  · simp
  · simp only [if_true]
    rw [h]
    simp [TreasureChest.unlock]

lemma chests_loop_no_key (net : Bool) (L : List (TreasureChest × Bool)) :
    ∀ s : ChestLoopState, s.player_has_key = false →
      chests_player_contact net s L =
        { s with chests := s.chests ++ L.map Prod.fst } := by
  induction L with
  | nil =>
      intro s h
      simp [chests_player_contact]
  | cons cb L ih =>
      intro s h
      obtain ⟨c, b⟩ := cb
      show chests_player_contact net (chest_contact_step net s c b) L = _
      rw [chest_step_no_key net s c b h, ih _ (by simpa using h)]
      simp

/-- C7: on player contact, a locked chest is unlocked if and only if
`player_has_key` holds at that moment.  An unlock consumes the key
(`player_has_key` becomes false, so one key unlocks exactly one chest even
when several locked chests are touched in the same frame), adds the chest's
coin reward to the score and to the total credited coins, applies the
health-pack reward capped at health 100, and removes the chest; contact
without a key changes nothing. -/
theorem treasure_chest_unlock_spec (net : Bool) (s : ChestLoopState)
    (c : TreasureChest) (rest : List (TreasureChest × Bool))
    (hlock : c.locked = true)
    (hv1 : TREASURE_CHEST_MIN_COINS ≤ c.value)
    (_hv2 : c.value ≤ TREASURE_CHEST_MAX_COINS) :
    c.unlock false = (c, none) ∧
    (c.unlock true).2 =
      some { coins := c.value, health_packs := c.health_packs } ∧
    (c.unlock true).1.locked = false ∧
    (s.player_has_key = false →
      chest_contact_step net s c true = { s with chests := s.chests ++ [c] }) ∧
    (s.player_has_key = true →
      (chest_contact_step net s c true).player_has_key = false ∧
      (chest_contact_step net s c true).chests = s.chests ∧
      (chest_contact_step net s c true).score = s.score + c.value ∧
      (chest_contact_step net s c true).econ.session_coins_earned +
          (chest_contact_step net s c true).wallet =
        s.econ.session_coins_earned + s.wallet + c.value ∧
      (chest_contact_step net s c true).player_health =
        (if c.health_packs > 0 then
          min 100 (s.player_health + c.health_packs * 10)
        else s.player_health)) ∧
    (s.player_has_key = true →
      (chests_player_contact net s ((c, true) :: rest)).chests =
        s.chests ++ rest.map Prod.fst ∧
      (chests_player_contact net s ((c, true) :: rest)).player_has_key =
        false) := by
  have hvpos : 0 < c.value := by
    unfold TREASURE_CHEST_MIN_COINS at hv1
    omega
  have hunlock_false : c.unlock false = (c, none) := by
    simp [TreasureChest.unlock]
  have hunlock_true : c.unlock true =
      ({ c with locked := false, is_spawning := false },
       some { coins := c.value, health_packs := c.health_packs }) := by
    simp [TreasureChest.unlock, hlock, TreasureChest.get_rewards]
  have hstep : ∀ hkey : s.player_has_key = true,
      chest_contact_step net s c true =
        (let econ1 := s.econ.add_coins c.value
         let r := econ1.save_session_coins net s.wallet
         let econ2 := r.2.1.sync_wallet net r.2.2
         let s1 : ChestLoopState :=
           { s with score := s.score + c.value, econ := econ2,
                    wallet := r.2.2 }
         let s2 : ChestLoopState :=
           if c.health_packs > 0 then
             let hp := min 100 (s1.player_health + c.health_packs * 10)
             { s1 with player_health := hp }
           else s1
         { s2 with player_has_key := false }) := by
    intro hkey
    unfold chest_contact_step
    simp only [if_true, hlock, hkey, Bool.and_self, hunlock_true]
    rw [if_pos hvpos]
  have hadd : (s.econ.add_coins c.value).session_coins_earned =
      s.econ.session_coins_earned + c.value := by
    unfold GameEconomy.add_coins
    rw [if_pos hvpos]
  have htot := save_session_coins_total (s.econ.add_coins c.value) net
    s.wallet
  refine ⟨hunlock_false, by rw [hunlock_true], by rw [hunlock_true],
    fun h => chest_step_no_key net s c true h, fun hkey => ?_, fun hkey => ?_⟩
  · by_cases hhp : c.health_packs > 0
    · refine ⟨by simp [hstep hkey, hhp], by simp [hstep hkey, hhp],
        by simp [hstep hkey, hhp], ?_, by simp [hstep hkey, hhp]⟩
      simp only [hstep hkey, if_pos hhp, sync_wallet_session]
      omega
    · refine ⟨by simp [hstep hkey, hhp], by simp [hstep hkey, hhp],
        by simp [hstep hkey, hhp], ?_, by simp [hstep hkey, hhp]⟩
      simp only [hstep hkey, if_neg hhp, sync_wallet_session]
      omega
  · show (chests_player_contact net (chest_contact_step net s c true)
      rest).chests = _ ∧ (chests_player_contact net
      (chest_contact_step net s c true) rest).player_has_key = false
    have hkf : (chest_contact_step net s c true).player_has_key = false := by
      by_cases hhp : c.health_packs > 0
      · simp [hstep hkey, hhp]
      · simp [hstep hkey, hhp]
    have hcs : (chest_contact_step net s c true).chests = s.chests := by
      by_cases hhp : c.health_packs > 0
      · simp [hstep hkey, hhp]
      · simp [hstep hkey, hhp]
    rw [chests_loop_no_key net rest _ hkf]
    constructor
    · simp [hcs]
    · exact hkf

theorem treasure_chest_unlock_spec_witness :
    (let c : TreasureChest := TreasureChest.init 200 300 80 80 1500 2
     let s : ChestLoopState :=
       { player_has_key := true, score := 0,
         econ := GameEconomy.init false 0, wallet := 0, player_health := 60,
         chests := [] }
     c.locked = true ∧ TREASURE_CHEST_MIN_COINS ≤ c.value ∧
     c.value ≤ TREASURE_CHEST_MAX_COINS ∧
     (c.unlock false = (c, none) ∧
      (c.unlock true).2 =
        some { coins := c.value, health_packs := c.health_packs } ∧
      (c.unlock true).1.locked = false ∧
      (s.player_has_key = false →
        chest_contact_step true s c true =
          { s with chests := s.chests ++ [c] }) ∧
      (s.player_has_key = true →
        (chest_contact_step true s c true).player_has_key = false ∧
        (chest_contact_step true s c true).chests = s.chests ∧
        (chest_contact_step true s c true).score = s.score + c.value ∧
        (chest_contact_step true s c true).econ.session_coins_earned +
            (chest_contact_step true s c true).wallet =
          s.econ.session_coins_earned + s.wallet + c.value ∧
        (chest_contact_step true s c true).player_health =
          (if c.health_packs > 0 then
            min 100 (s.player_health + c.health_packs * 10)
          else s.player_health)) ∧
      (s.player_has_key = true →
        (chests_player_contact true s [(c, true)]).chests =
          s.chests ++ ([] : List (TreasureChest × Bool)).map Prod.fst ∧
        (chests_player_contact true s [(c, true)]).player_has_key =
          false))) :=
  ⟨by decide, by decide, by decide,
   treasure_chest_unlock_spec true _ _ [] (by decide) (by decide)
     (by decide)⟩

lemma victory_message_no_transition (net : Bool) (g : VictoryState)
    (hal : g.aliens ≠ 0) :
    coinTotal (victory_message net g) = coinTotal g ∧
    (victory_message net g).aliens = g.aliens := by
  have hdes : all_aliens_destroyed g = false := by
    unfold all_aliens_destroyed
    simp [hal]
  unfold victory_message
  simp only [hdes, Bool.false_eq_true, false_and, if_false]
  by_cases hflag : g.level_just_completed = true
  · simp only [hflag, if_true]
    split
    · exact ⟨rfl, rfl⟩
    · exact ⟨rfl, rfl⟩
  · simp only [hflag, if_false]
    exact ⟨rfl, rfl⟩

lemma victory_frames_no_transition (net : Bool) (n : Nat) :
    ∀ g : VictoryState, g.aliens ≠ 0 →
      coinTotal (victory_frames net n g) = coinTotal g := by
  induction n with
  | zero =>
      intro g _
      rfl
  | succ m ih =>
      intro g hal
      have h := victory_message_no_transition net g hal
      show coinTotal (victory_frames net m (victory_message net g)) = _
      rw [ih _ (by rw [h.2]; exact hal), h.1]

lemma level_config_formation_pos (i : Nat) :
    (get_level_config i).rows * (get_level_config i).cols ≠ 0 := by
  rcases i with _|_|_|_|_|_|n <;> simp [get_level_config, level_dict]

/-- C4: when all three enemy groups are empty, the completion flag is down
and the level is below the maximum, `victory_message` credits exactly
`50 * 2 ^ level_index` bonus coins for the completed level (counting both
the session accumulator and the wallet, whatever the backend availability),
advances the level, re-seeds all three enemy groups from the next level's
configuration, restores 25 health capped at 100, increments lives up to the
cap 3 — and the bonus is granted exactly once: every further
`victory_message` frame while the completion message is displayed leaves
the credited coin total unchanged. -/
theorem level_transition_bonus_spec (net : Bool) (g : VictoryState) (n : Nat)
    (hdest : all_aliens_destroyed g = true)
    (hflag : g.level_just_completed = false)
    (hlvl : g.level < max_level) :
    coinTotal (victory_message net g) = coinTotal g + 50 * 2 ^ g.level ∧
    (victory_message net g).level = g.level + 1 ∧
    (victory_message net g).level_just_completed = true ∧
    (victory_message net g).aliens =
      (get_level_config (g.level + 1)).rows *
        (get_level_config (g.level + 1)).cols ∧
    (victory_message net g).diagonal_aliens =
      (get_level_config (g.level + 1)).diagonal_count ∧
    (victory_message net g).diver_aliens =
      (get_level_config (g.level + 1)).diver_count ∧
    (victory_message net g).player_health =
      min 100 (g.player_health + 25) ∧
    (victory_message net g).lives =
      (if g.lives < 3 then g.lives + 1 else g.lives) ∧
    coinTotal (victory_frames net n (victory_message net g)) =
      coinTotal (victory_message net g) := by
  have hcond : (all_aliens_destroyed g = true) ∧
      ¬(g.level_just_completed = true) ∧ g.level < max_level :=
    ⟨hdest, by rw [hflag]; simp, hlvl⟩
  have hres : victory_message net g =
      (let bonus : Int := 50 * 2 ^ g.level
       let r := (g.econ.add_coins bonus).save_session_coins net g.wallet
       let cfg := get_level_config (g.level + 1)
       { aliens := cfg.rows * cfg.cols,
         diagonal_aliens := cfg.diagonal_count,
         diver_aliens := cfg.diver_count, level := g.level + 1,
         level_just_completed := true, level_complete_counter := 179,
         level_bonus_earned := bonus,
         player_health := min 100 (g.player_health + 25),
         health_restored := min 100 (g.player_health + 25) - g.player_health,
         lives := if g.lives < 3 then g.lives + 1 else g.lives,
         econ := r.2.1, wallet := r.2.2 }) := by
    unfold victory_message
    rw [if_pos hcond]
    unfold alien_setup increment_level
    rw [if_pos hlvl]
    norm_num
  have hbonus : (0 : Int) < 50 * 2 ^ g.level := by positivity
  have hadd : (g.econ.add_coins (50 * 2 ^ g.level)).session_coins_earned =
      g.econ.session_coins_earned + 50 * 2 ^ g.level := by
    unfold GameEconomy.add_coins
    rw [if_pos hbonus]
  have htot := save_session_coins_total
    (g.econ.add_coins (50 * 2 ^ g.level)) net g.wallet
  refine ⟨?_, by rw [hres], by rw [hres], by rw [hres], by rw [hres],
    by rw [hres], by rw [hres], by rw [hres], ?_⟩
  · rw [hres]
    unfold coinTotal
    simp only []
    omega
  · apply victory_frames_no_transition
    rw [hres]
    exact level_config_formation_pos (g.level + 1)

theorem level_transition_bonus_spec_witness :
    (let g : VictoryState :=
       { aliens := 0, diagonal_aliens := 0, diver_aliens := 0, level := 0,
         level_just_completed := false, level_complete_counter := 0,
         level_bonus_earned := 0, player_health := 50, health_restored := 0,
         lives := 2, econ := GameEconomy.init false 0, wallet := 0 }
     all_aliens_destroyed g = true ∧ g.level_just_completed = false ∧
     g.level < max_level ∧
     (coinTotal (victory_message true g) = coinTotal g + 50 * 2 ^ g.level ∧
      (victory_message true g).level = g.level + 1 ∧
      (victory_message true g).level_just_completed = true ∧
      (victory_message true g).aliens =
        (get_level_config (g.level + 1)).rows *
          (get_level_config (g.level + 1)).cols ∧
      (victory_message true g).diagonal_aliens =
        (get_level_config (g.level + 1)).diagonal_count ∧
      (victory_message true g).diver_aliens =
        (get_level_config (g.level + 1)).diver_count ∧
      (victory_message true g).player_health =
        min 100 (g.player_health + 25) ∧
      (victory_message true g).lives =
        (if g.lives < 3 then g.lives + 1 else g.lives) ∧
      coinTotal (victory_frames true 2 (victory_message true g)) =
        coinTotal (victory_message true g))) :=
  ⟨by decide, by decide, by decide,
   level_transition_bonus_spec true _ 2 (by decide) (by decide) (by decide)⟩

end SpaceGame
